import Mathlib

/-!
Shallow embedding of `src/shared_ptr.h`: a single-threaded shared/weak
ownership pointer pair over a reference-counted control block.

Modelling conventions:
* Payload pointers (`T*`, `Y*`) are `Ptr := Option Nat`; `none` is `nullptr`.
* All claims concern the protocol on one control block at a time, so a
  handle's `cb` field is a `Bool`: `true` means the handle references the
  (single) block under discussion, `false` models a null `control_block*`.
  Each operation passes the block state explicitly.
* The block carries instrumentation the C++ performs through side effects:
  `destroyed` logs each pointer fed to `delete_object` (the deleter call /
  in-place destructor), and `free_count` counts executions of `delete cb`.
  `stored_ptr` is `control_block_ptr::ptr` (for `control_block_obj` it is
  the address of the inline `data` storage).
* Fallible constructors (`operator new` failing, the payload constructor
  throwing) take a `Bool` telling which way the fallible step went and
  return `Except Unit`.
-/

/-- Payload pointer: `none` models `nullptr`. -/
abbrev Ptr := Option Nat

/-- `control_block` (src/shared_ptr.h lines 7-40): strong (`ref_count`) and
weak counters, plus instrumentation of the side effects: `stored_ptr` is the
pointer the virtual `delete_object` acts on, `destroyed` logs the pointers it
was invoked on, `free_count` counts `delete cb` events. The defaults are the
in-class initialisers `ref_count = 1`, `weak_count = 0`. -/
structure control_block where
  ref_count : Nat := 1
  weak_count : Nat := 0
  stored_ptr : Ptr := none
  destroyed : List Ptr := []
  free_count : Nat := 0
deriving Repr, DecidableEq

/-- `control_block_ptr::delete_object` (lines 46-48) /
`control_block_obj::delete_object` (lines 63-65): invoke the deleter (resp.
the in-place destructor) on the stored payload pointer; modelled as logging
that pointer. -/
def control_block.delete_object (b : control_block) : control_block :=
  { b with destroyed := b.destroyed ++ [b.stored_ptr] }

/-- `control_block::release_ref` (lines 8-13): decrement `ref_count`; when it
reaches 0, run `delete_object`. -/
def control_block.release_ref (b : control_block) : control_block :=
  let b' : control_block := { b with ref_count := b.ref_count - 1 }
  if b'.ref_count == 0 then b'.delete_object else b'

/-- `control_block::release_weak` (lines 15-17). -/
def control_block.release_weak (b : control_block) : control_block :=
  { b with weak_count := b.weak_count - 1 }

/-- `control_block::add_ref` (lines 19-21). -/
def control_block.add_ref (b : control_block) : control_block :=
  { b with ref_count := b.ref_count + 1 }

/-- `control_block::add_weak` (lines 23-25). -/
def control_block.add_weak (b : control_block) : control_block :=
  { b with weak_count := b.weak_count + 1 }

/-- `control_block::use_count` (lines 27-29). -/
def control_block.use_count (b : control_block) : Nat := b.ref_count

/-- `control_block::weak_use_count` (lines 31-33). -/
def control_block.weak_use_count (b : control_block) : Nat := b.weak_count

/-- `delete cb` (lines 190, 305): deallocating the block, modelled as
bumping the instrumentation counter. -/
def control_block.dealloc (b : control_block) : control_block :=
  { b with free_count := b.free_count + 1 }

/-- A freshly constructed `control_block_ptr(p, d)` (lines 42-53): counters
at their initialisers (`ref_count = 1`, `weak_count = 0`), payload pointer
`p` stored for the deleter. -/
def initBlock (p : Ptr) : control_block := { stored_ptr := p }

/-- `shared_ptr<T>` (lines 80-200): `cb` is whether the handle references
the block under discussion (`false` = null `control_block*`), `ptr` the
cached payload pointer. Defaults are the member initialisers (lines
198-199). -/
structure shared_ptr where
  cb : Bool := false
  ptr : Ptr := none
deriving Repr, DecidableEq

/-- `weak_ptr<T>` (lines 243-312), same shape as `shared_ptr`. -/
structure weak_ptr where
  cb : Bool := false
  ptr : Ptr := none
deriving Repr, DecidableEq

/-- The default-constructed empty handle (line 88). -/
def shared_ptr.empty : shared_ptr := ⟨false, none⟩

/-- The default-constructed empty weak handle (line 248). -/
def weak_ptr.empty : weak_ptr := ⟨false, none⟩

/-- `shared_ptr::get` (lines 161-163). -/
def shared_ptr.get (h : shared_ptr) : Ptr := h.ptr

/-- `shared_ptr::use_count` (lines 165-167): 0 on a null `cb`, else the
block's strong count. -/
def shared_ptr.use_count (h : shared_ptr) (b : control_block) : Nat :=
  if h.cb then b.use_count else 0

/-- `shared_ptr(Y* p, D deleter)` (lines 103-112). `alloc_ok` tells whether
`new control_block_ptr(p, deleter)` succeeds; on failure the catch block
runs `deleter(p)` and rethrows. Returns the construction outcome and the
log of pointers the deleter was invoked on during construction. -/
def shared_ptr.construct (p : Ptr) (alloc_ok : Bool) :
    Except Unit (shared_ptr × control_block) × List Ptr :=
  if alloc_ok then (.ok (⟨true, p⟩, initBlock p), [])
  else (.error (), [p])

/-- Copy constructor `shared_ptr(shared_ptr const&)` (lines 97-101): take
over `rhs`'s fields and `add_ref` when the block reference is non-null. -/
def shared_ptr.copy (r : shared_ptr) (b : control_block) :
    shared_ptr × control_block :=
  (⟨r.cb, r.ptr⟩, if r.cb then b.add_ref else b)

/-- Aliasing constructor `shared_ptr(shared_ptr<Y> const& r, T* ptr)`
(lines 114-119): share `r`'s control block but store the supplied pointer. -/
def shared_ptr.aliasCtor (r : shared_ptr) (q : Ptr) (b : control_block) :
    shared_ptr × control_block :=
  (⟨r.cb, q⟩, if r.cb then b.add_ref else b)

/-- Move constructor `shared_ptr(shared_ptr&&)` (lines 124-127): the new
handle takes `rhs`'s fields, `rhs` is nulled out; the control block is not
touched. Returns ((destination, moved-from source), block). -/
def shared_ptr.moveCtor (r : shared_ptr) (b : control_block) :
    (shared_ptr × shared_ptr) × control_block :=
  ((⟨r.cb, r.ptr⟩, ⟨false, none⟩), b)

/-- `~shared_ptr` (lines 184-192): null `cb` is a no-op; otherwise
`release_ref`, then `delete cb` when both counters are zero. -/
def shared_ptr.dtor (h : shared_ptr) (b : control_block) : control_block :=
  if h.cb then
    let b' := b.release_ref
    if b'.use_count == 0 && b'.weak_use_count == 0 then b'.dealloc else b'
  else b

/-- `shared_ptr(weak_ptr<Y> const&)` (lines 129-134): take the weak
handle's fields and `add_ref` when non-null. -/
def shared_ptr.fromWeak (w : weak_ptr) (b : control_block) :
    shared_ptr × control_block :=
  (⟨w.cb, w.ptr⟩, if w.cb then b.add_ref else b)

/-- `operator bool` (lines 157-159): `ptr != nullptr`. -/
def shared_ptr.opBool (h : shared_ptr) : Bool := h.ptr != none

/-- `operator==(shared_ptr const&, nullptr_t)` (lines 213-216):
`lhs.get() == nullptr`. -/
def shared_ptr.eqNull (h : shared_ptr) : Bool := h.get == none

/-- Copy assignment `operator=(shared_ptr const&)` (lines 136-139) applied
to the handle itself (`rhs` is `*this`): `shared_ptr(rhs).swap(*this)`,
then the temporary is destroyed. -/
def shared_ptr.copyAssignSelf (h : shared_ptr) (b : control_block) :
    shared_ptr × control_block :=
  let t := shared_ptr.copy h b
  -- after swap, *this holds the temporary's fields and the temporary holds
  -- the old fields of *this; the temporary is then destroyed
  (t.1, shared_ptr.dtor h t.2)

/-- Move assignment `operator=(shared_ptr&&)` (lines 141-146) applied to
the handle itself: the `this != &rhs` guard fails, so nothing happens. -/
def shared_ptr.moveAssignSelf (h : shared_ptr) (b : control_block) :
    shared_ptr × control_block :=
  (h, b)

/-- `weak_ptr(shared_ptr<Y> const&)` (lines 273-278). -/
def weak_ptr.fromShared (r : shared_ptr) (b : control_block) :
    weak_ptr × control_block :=
  (⟨r.cb, r.ptr⟩, if r.cb then b.add_weak else b)

/-- Copy constructor `weak_ptr(weak_ptr const&)` (lines 250-254). -/
def weak_ptr.copy (r : weak_ptr) (b : control_block) :
    weak_ptr × control_block :=
  (⟨r.cb, r.ptr⟩, if r.cb then b.add_weak else b)

/-- Move constructor `weak_ptr(weak_ptr&&)` (lines 256-259). -/
def weak_ptr.moveCtor (r : weak_ptr) (b : control_block) :
    (weak_ptr × weak_ptr) × control_block :=
  ((⟨r.cb, r.ptr⟩, ⟨false, none⟩), b)

/-- `weak_ptr::use_count` (lines 280-282). -/
def weak_ptr.use_count (w : weak_ptr) (b : control_block) : Nat :=
  if w.cb then b.use_count else 0

/-- `weak_ptr::expired` (lines 284-286): `use_count() == 0`. -/
def weak_ptr.expired (w : weak_ptr) (b : control_block) : Bool :=
  w.use_count b == 0

/-- `weak_ptr::lock` (lines 288-290): `!expired() ? shared_ptr<T>(*this)
: shared_ptr<T>()`. -/
def weak_ptr.lock (w : weak_ptr) (b : control_block) :
    shared_ptr × control_block :=
  if !(w.expired b) then shared_ptr.fromWeak w b else (shared_ptr.empty, b)

/-- `~weak_ptr` (lines 298-307): null `cb` is a no-op; otherwise
`release_weak`, then `delete cb` when both counters are zero. -/
def weak_ptr.dtor (w : weak_ptr) (b : control_block) : control_block :=
  if w.cb then
    let b' := b.release_weak
    if b'.use_count == 0 && b'.weak_use_count == 0 then b'.dealloc else b'
  else b

/-- Copy assignment `weak_ptr::operator=(weak_ptr const&)` (lines 261-264)
applied to the handle itself (no self-check in the source):
`weak_ptr(rhs).swap(*this)`, then the temporary is destroyed. -/
def weak_ptr.copyAssignSelf (w : weak_ptr) (b : control_block) :
    weak_ptr × control_block :=
  let t := weak_ptr.copy w b
  (t.1, weak_ptr.dtor w t.2)

/-- Move assignment `weak_ptr::operator=(weak_ptr&&)` (lines 266-271)
applied to the handle itself: the `this != &rhs` guard fails. -/
def weak_ptr.moveAssignSelf (w : weak_ptr) (b : control_block) :
    weak_ptr × control_block :=
  (w, b)

/-- Instrumentation of the single `new control_block_obj<A>(...)` allocation
in `make_shared` (lines 234-241): how many times its storage was allocated
and freed, and how many times the payload's in-place destructor ran. -/
structure objAllocLog where
  allocs : Nat
  frees : Nat
  payload_dtors : Nat
deriving Repr, DecidableEq

/-- `make_shared<A>(args...)` (lines 234-241). `ctor_throws` tells whether
the payload constructor invoked by `control_block_obj`'s constructor (lines
58-61) throws; per C++ new-expression semantics the throw frees the fresh
allocation and propagates, and the payload's destructor never runs. On
success the resulting handle points into the block (`bl->get()`, modelled as
`objAddr`, the address of the inline storage). -/
def make_shared (objAddr : Nat) (ctor_throws : Bool) :
    Except Unit (shared_ptr × control_block) × objAllocLog :=
  if ctor_throws then
    (.error (), ⟨1, 1, 0⟩)
  else
    (.ok (⟨true, some objAddr⟩, initBlock (some objAddr)), ⟨1, 0, 0⟩)

/-- C1:
For every payload type T and raw pointer p, after constructing a Shared
Pointer from p its use_count() is 1; after making a copy, both handles
report use_count() == 2; destroying the copy returns the original's
use_count() to 1; and destroying the last remaining Shared Pointer destroys
the payload exactly once. -/
theorem construct_copy_destroy_lifecycle (p : Ptr) :
    (shared_ptr.construct p true).1 = .ok (⟨true, p⟩, initBlock p) ∧
    shared_ptr.use_count ⟨true, p⟩ (initBlock p) = 1 ∧
    (shared_ptr.copy ⟨true, p⟩ (initBlock p)).1 = ⟨true, p⟩ ∧
    shared_ptr.use_count ⟨true, p⟩
      (shared_ptr.copy ⟨true, p⟩ (initBlock p)).2 = 2 ∧
    shared_ptr.use_count (shared_ptr.copy ⟨true, p⟩ (initBlock p)).1
      (shared_ptr.copy ⟨true, p⟩ (initBlock p)).2 = 2 ∧
    shared_ptr.use_count ⟨true, p⟩
      (shared_ptr.dtor ⟨true, p⟩
        (shared_ptr.copy ⟨true, p⟩ (initBlock p)).2) = 1 ∧
    (shared_ptr.dtor ⟨true, p⟩
        (shared_ptr.copy ⟨true, p⟩ (initBlock p)).2).destroyed = [] ∧
    (shared_ptr.dtor ⟨true, p⟩
      (shared_ptr.dtor ⟨true, p⟩
        (shared_ptr.copy ⟨true, p⟩ (initBlock p)).2)).destroyed = [p] := by
  refine ⟨rfl, rfl, rfl, rfl, rfl, rfl, rfl, rfl⟩

/-! ### Handle-operation traces on one control block (for the lifecycle
invariant).  Each operation is the block-side effect of one handle event. -/

/-- One handle event touching the control block: copying a Shared Pointer
(`add_ref`, lines 97-101), creating/copying a Weak Pointer (`add_weak`,
lines 250-254 / 273-278), running `~shared_ptr` (lines 184-192), or running
`~weak_ptr` (lines 298-307). -/
inductive hOp where
  | copyShared
  | copyWeak
  | dtorShared
  | dtorWeak
deriving Repr, DecidableEq

/-- The block-side effect of one handle event, straight from the
constructor/destructor bodies. -/
def stepOp (b : control_block) : hOp → control_block
  | .copyShared => b.add_ref
  | .copyWeak => b.add_weak
  | .dtorShared =>
      let b' := b.release_ref
      if b'.use_count == 0 && b'.weak_use_count == 0 then b'.dealloc else b'
  | .dtorWeak =>
      let b' := b.release_weak
      if b'.use_count == 0 && b'.weak_use_count == 0 then b'.dealloc else b'

/-- The add-before-release precondition (spec section 4.1): an event is legal
only while a handle that could perform it exists — a strong handle for
copying or destroying a Shared Pointer, a strong or weak handle for creating
a Weak Pointer, a weak handle for destroying one. -/
def legalOp (b : control_block) : hOp → Bool
  | .copyShared => b.ref_count != 0
  | .copyWeak => b.ref_count != 0 || b.weak_count != 0
  | .dtorShared => b.ref_count != 0
  | .dtorWeak => b.weak_count != 0

/-- Run a trace of handle events over the block. -/
def runTrace (b : control_block) : List hOp → control_block
  | [] => b
  | o :: os => runTrace (stepOp b o) os

/-- A trace is legal when every event is legal in the state it runs in. -/
def legalTrace (b : control_block) : List hOp → Bool
  | [] => true
  | o :: os => legalOp b o && legalTrace (stepOp b o) os

/-- The lifecycle invariant: the payload has been destroyed exactly once if
the strong count is zero and never otherwise (so destruction happens exactly
at the 1 → 0 transition of `ref_count`), and the block has been deallocated
exactly once if both counters are zero and never otherwise (so `delete cb`
happens exactly at the release that zeroes the second counter). -/
def blockInv (b : control_block) : Prop :=
  b.destroyed = (if b.ref_count = 0 then [b.stored_ptr] else []) ∧
  b.free_count = (if b.ref_count = 0 ∧ b.weak_count = 0 then 1 else 0)

theorem blockInv_step {b : control_block} {o : hOp} (hinv : blockInv b)
    (hleg : legalOp b o = true) : blockInv (stepOp b o) := by
  obtain ⟨hd, hf⟩ := hinv
  cases o <;>
    simp only [legalOp, bne_iff_ne, ne_eq, Bool.or_eq_true,
      decide_eq_true_eq] at hleg <;>
    simp only [stepOp, control_block.release_ref, control_block.release_weak,
      control_block.add_ref, control_block.add_weak,
      control_block.delete_object, control_block.dealloc,
      control_block.use_count, control_block.weak_use_count,
      Bool.and_eq_true, beq_iff_eq, blockInv] <;>
    split_ifs <;>
    simp_all

/-- Legal traces preserve the lifecycle invariant. -/
theorem blockInv_runTrace {b : control_block} (ops : List hOp)
    (hinv : blockInv b) (hleg : legalTrace b ops = true) :
    blockInv (runTrace b ops) := by
  induction ops generalizing b with
  | nil => exact hinv
  | cons o os ih =>
      simp only [legalTrace, Bool.and_eq_true] at hleg
      exact ih (blockInv_step hinv hleg.1) hleg.2

/-- C2:
For every control block and every interleaving of Shared/Weak Pointer
constructions and destructions respecting the add-before-release
precondition, the payload is destroyed exactly once, at the transition of
the strong count from 1 to 0, and the block itself is deallocated exactly
once, at the first release after which both the strong count and the weak
count are zero: along every legal trace from a fresh block, `destroyed`
holds exactly one entry exactly when the strong count is zero, and
`free_count` is exactly one exactly when both counters are zero. -/
theorem lifecycle_invariant (p : Ptr) (ops : List hOp)
    (hleg : legalTrace (initBlock p) ops = true) :
    blockInv (runTrace (initBlock p) ops) :=
  blockInv_runTrace ops (by simp [blockInv, initBlock]) hleg

/-- Witness for C2: a concrete legal trace — copy the shared handle, create
a weak handle, destroy all three handles — satisfies the invariant at its
end: the payload was destroyed once, the block freed once. -/
theorem lifecycle_invariant_witness :
    blockInv (runTrace (initBlock (some 5))
      [.copyShared, .copyWeak, .dtorShared, .dtorShared, .dtorWeak]) :=
  lifecycle_invariant (some 5)
    [.copyShared, .copyWeak, .dtorShared, .dtorShared, .dtorWeak]
    (by decide)

/-- C3:
For every Weak Pointer whose control block reports strong count zero (or
whose control-block reference is null), upgrading it with lock() produces
the empty handle (null control block, null payload pointer, use_count 0)
and changes no counter; otherwise the upgrade behaves like a copy,
incrementing the strong count by one. -/
theorem lock_upgrade_spec (w : weak_ptr) (b : control_block) :
    (w.expired b = true →
      w.lock b = (shared_ptr.empty, b) ∧ shared_ptr.empty.cb = false ∧
      shared_ptr.empty.ptr = none ∧ shared_ptr.empty.use_count b = 0) ∧
    (w.expired b = false →
      w.lock b = (⟨w.cb, w.ptr⟩, b.add_ref) ∧
      (b.add_ref).ref_count = b.ref_count + 1) := by
  constructor
  · intro hx
    refine ⟨?_, rfl, rfl, rfl⟩
    simp [weak_ptr.lock, hx]
  · intro hx
    have hcb : w.cb = true := by
      by_contra hc
      have hf : w.cb = false := by simpa using hc
      simp [weak_ptr.expired, weak_ptr.use_count, hf] at hx
    refine ⟨?_, rfl⟩
    simp [weak_ptr.lock, hx, shared_ptr.fromWeak, hcb]

/-- Witness for C3 at concrete inputs: a null weak handle locks to the
empty handle with the block untouched; a live weak handle locks to a copy
with the strong count incremented. -/
theorem lock_upgrade_spec_witness :
    weak_ptr.lock ⟨false, none⟩ (initBlock (some 1))
        = (shared_ptr.empty, initBlock (some 1)) ∧
    weak_ptr.lock ⟨true, some 1⟩ (initBlock (some 1))
        = (⟨true, some 1⟩, (initBlock (some 1)).add_ref) :=
  ⟨((lock_upgrade_spec ⟨false, none⟩ (initBlock (some 1))).1 (by decide)).1,
   ((lock_upgrade_spec ⟨true, some 1⟩ (initBlock (some 1))).2 (by decide)).1⟩

/-- C4:
For every argument list whose forwarding into the payload's constructor
throws, make_shared lets the exception propagate, produces no Shared
Pointer, leaks no memory (the single allocation is freed), and does not run
the destructor of the never-constructed payload; on success it produces a
handle into the single allocation with strong count 1. -/
theorem make_shared_exception_safety (a : Nat) :
    (make_shared a true).1 = .error () ∧
    (make_shared a true).2.allocs = (make_shared a true).2.frees ∧
    (make_shared a true).2.payload_dtors = 0 ∧
    (make_shared a false).1 = .ok (⟨true, some a⟩, initBlock (some a)) ∧
    (make_shared a false).2.frees = 0 ∧
    shared_ptr.use_count ⟨true, some a⟩ (initBlock (some a)) = 1 :=
  ⟨rfl, rfl, rfl, rfl, rfl, rfl⟩

/-- C5:
For every raw pointer p and deleter d, if allocating the Pointer Control
Block fails, d is invoked on p exactly once before the failure propagates
and no Shared Pointer is produced; if allocation succeeds, d is not
invoked during construction. -/
theorem construct_alloc_failure (p : Ptr) :
    (shared_ptr.construct p false).1 = .error () ∧
    (shared_ptr.construct p false).2 = [p] ∧
    (shared_ptr.construct p true).2 = [] ∧
    (shared_ptr.construct p true).1 = .ok (⟨true, p⟩, initBlock p) :=
  ⟨rfl, rfl, rfl, rfl⟩

/-- C6:
Moving from a Shared Pointer (or a Weak Pointer) transfers its control-block
reference and payload address to the destination, leaves the source empty
(both fields null, use_count 0), and performs no increment or decrement of
either counter (the block is returned unchanged). -/
theorem move_leaves_source_empty (r : shared_ptr) (v : weak_ptr)
    (b : control_block) :
    shared_ptr.moveCtor r b = ((⟨r.cb, r.ptr⟩, shared_ptr.empty), b) ∧
    shared_ptr.use_count (shared_ptr.moveCtor r b).1.2 b = 0 ∧
    weak_ptr.moveCtor v b = ((⟨v.cb, v.ptr⟩, weak_ptr.empty), b) ∧
    weak_ptr.use_count (weak_ptr.moveCtor v b).1.2 b = 0 :=
  ⟨rfl, rfl, rfl, rfl⟩

/-- Helper block for C7's witness: its strong count has dropped to zero
(the payload has been destroyed), one weak reference remains. -/
def deadBlk : control_block :=
  { ref_count := 0, weak_count := 1, stored_ptr := some 2,
    destroyed := [some 2], free_count := 0 }

/-- C7:
For every Weak Pointer w, w.expired() is true iff the strong count it
observes is 0 (a null control-block reference counting as strong count 0);
and once the strong count is 0, w.expired() = true and w.lock() returns the
empty Shared Pointer, with the block unchanged. -/
theorem expired_iff_strong_zero (w : weak_ptr) (b : control_block) :
    (w.expired b = true ↔ weak_ptr.use_count w b = 0) ∧
    (w.cb = false → w.expired b = true) ∧
    (b.ref_count = 0 →
      w.expired b = true ∧ w.lock b = (shared_ptr.empty, b)) := by
  refine ⟨beq_iff_eq, ?_, ?_⟩
  · intro hf
    simp [weak_ptr.expired, weak_ptr.use_count, hf]
  · intro hz
    have hx : w.expired b = true := by
      cases hc : w.cb <;>
        simp [weak_ptr.expired, weak_ptr.use_count, control_block.use_count,
          hc, hz]
    exact ⟨hx, by simp [weak_ptr.lock, hx]⟩

/-- Witness for C7 at concrete inputs: a null weak handle is expired; over
a block whose strong count reached zero, a live weak handle is expired and
locks to the empty handle. -/
theorem expired_iff_strong_zero_witness :
    weak_ptr.expired ⟨false, none⟩ deadBlk = true ∧
    (weak_ptr.expired ⟨true, some 2⟩ deadBlk = true ∧
     weak_ptr.lock ⟨true, some 2⟩ deadBlk = (shared_ptr.empty, deadBlk)) :=
  ⟨(expired_iff_strong_zero ⟨false, none⟩ deadBlk).2.1 rfl,
   (expired_iff_strong_zero ⟨true, some 2⟩ deadBlk).2.2 rfl⟩

/-- C8:
Aliasing-constructing m from (b, q) increments the strong count of b's
control block by one and stores q as m's payload pointer; destroying b then
destroys no payload, does not free the block, and leaves m dereferenceable
at q with use_count 1; the owned payload is destroyed only when m, the last
strong holder, is also destroyed. -/
theorem aliasing_lifecycle (pb q : Ptr) :
    (shared_ptr.aliasCtor ⟨true, pb⟩ q (initBlock pb)).1 = ⟨true, q⟩ ∧
    ((shared_ptr.aliasCtor ⟨true, pb⟩ q (initBlock pb)).2).ref_count
      = (initBlock pb).ref_count + 1 ∧
    (shared_ptr.dtor ⟨true, pb⟩
      (shared_ptr.aliasCtor ⟨true, pb⟩ q (initBlock pb)).2).destroyed = [] ∧
    (shared_ptr.dtor ⟨true, pb⟩
      (shared_ptr.aliasCtor ⟨true, pb⟩ q (initBlock pb)).2).free_count = 0 ∧
    shared_ptr.get ⟨true, q⟩ = q ∧
    shared_ptr.use_count ⟨true, q⟩
      (shared_ptr.dtor ⟨true, pb⟩
        (shared_ptr.aliasCtor ⟨true, pb⟩ q (initBlock pb)).2) = 1 ∧
    (shared_ptr.dtor ⟨true, q⟩
      (shared_ptr.dtor ⟨true, pb⟩
        (shared_ptr.aliasCtor ⟨true, pb⟩ q (initBlock pb)).2)).destroyed
      = [pb] :=
  ⟨rfl, rfl, rfl, rfl, rfl, rfl, rfl⟩

/-- C9:
Assigning a handle to itself — by copy assignment or by move assignment,
for Shared and for Weak Pointers — leaves the handle's fields and the
control block (both counters, the destruction log, the deallocation count)
unchanged; in particular nothing is double-released and no payload is
destroyed. The hypotheses state that a handle holding a block reference
accounts for at least one unit of the corresponding counter. -/
theorem self_assignment_noop (s : shared_ptr) (w : weak_ptr)
    (b : control_block)
    (hs : s.cb = true → 1 ≤ b.ref_count)
    (hw : w.cb = true → 1 ≤ b.weak_count) :
    shared_ptr.copyAssignSelf s b = (s, b) ∧
    shared_ptr.moveAssignSelf s b = (s, b) ∧
    weak_ptr.copyAssignSelf w b = (w, b) ∧
    weak_ptr.moveAssignSelf w b = (w, b) := by
  obtain ⟨sc, sp⟩ := s
  obtain ⟨wc, wp⟩ := w
  obtain ⟨rc, kc, st, d, f⟩ := b
  refine ⟨?_, rfl, ?_, rfl⟩
  · cases sc with
    | false => rfl
    | true =>
        have h1 : rc ≠ 0 := by
          have h0 : 1 ≤ rc := hs rfl
          omega
        simp [shared_ptr.copyAssignSelf, shared_ptr.copy, shared_ptr.dtor,
          control_block.add_ref, control_block.release_ref,
          control_block.delete_object, control_block.dealloc,
          control_block.use_count, control_block.weak_use_count, h1]
  · cases wc with
    | false => rfl
    | true =>
        have h2 : kc ≠ 0 := by
          have h0 : 1 ≤ kc := hw rfl
          omega
        simp [weak_ptr.copyAssignSelf, weak_ptr.copy, weak_ptr.dtor,
          control_block.add_weak, control_block.release_weak,
          control_block.dealloc, control_block.use_count,
          control_block.weak_use_count, h2]

/-- Witness for C9 at concrete inputs: self-assignment of a live shared
handle and a live weak handle over a block with one strong and one weak
reference changes nothing. -/
theorem self_assignment_noop_witness :
    shared_ptr.copyAssignSelf ⟨true, some 3⟩
        { ref_count := 1, weak_count := 1, stored_ptr := some 3 }
      = (⟨true, some 3⟩,
        { ref_count := 1, weak_count := 1, stored_ptr := some 3 }) ∧
    shared_ptr.moveAssignSelf ⟨true, some 3⟩
        { ref_count := 1, weak_count := 1, stored_ptr := some 3 }
      = (⟨true, some 3⟩,
        { ref_count := 1, weak_count := 1, stored_ptr := some 3 }) ∧
    weak_ptr.copyAssignSelf ⟨true, some 3⟩
        { ref_count := 1, weak_count := 1, stored_ptr := some 3 }
      = (⟨true, some 3⟩,
        { ref_count := 1, weak_count := 1, stored_ptr := some 3 }) ∧
    weak_ptr.moveAssignSelf ⟨true, some 3⟩
        { ref_count := 1, weak_count := 1, stored_ptr := some 3 }
      = (⟨true, some 3⟩,
        { ref_count := 1, weak_count := 1, stored_ptr := some 3 }) :=
  self_assignment_noop ⟨true, some 3⟩ ⟨true, some 3⟩
    { ref_count := 1, weak_count := 1, stored_ptr := some 3 }
    (by decide) (by decide)

/-- C10:
The boolean-truth test and equality against nullptr are determined solely
by the stored payload pointer, independent of the control-block reference:
a Shared Pointer tests true iff get() is non-null. A handle constructed
from a null raw pointer, or aliasing-constructed with a null exposed
pointer, has use_count at least 1 yet tests false and compares equal to
nullptr. -/
theorem null_payload_observability (h : shared_ptr) (c c' : Bool)
    (q pb : Ptr) (b : control_block) :
    (shared_ptr.opBool h = true ↔ h.get ≠ none) ∧
    (shared_ptr.eqNull h = true ↔ h.get = none) ∧
    shared_ptr.opBool ⟨c, q⟩ = shared_ptr.opBool ⟨c', q⟩ ∧
    shared_ptr.eqNull ⟨c, q⟩ = shared_ptr.eqNull ⟨c', q⟩ ∧
    (shared_ptr.construct none true).1 = .ok (⟨true, none⟩, initBlock none) ∧
    shared_ptr.use_count ⟨true, none⟩ (initBlock none) = 1 ∧
    shared_ptr.opBool ⟨true, none⟩ = false ∧
    shared_ptr.eqNull ⟨true, none⟩ = true ∧
    (shared_ptr.aliasCtor ⟨true, pb⟩ none b).1 = ⟨true, none⟩ ∧
    1 ≤ shared_ptr.use_count ⟨true, none⟩
      ((shared_ptr.aliasCtor ⟨true, pb⟩ none b).2) := by
  refine ⟨?_, ?_, ?_, ?_, rfl, rfl, rfl, rfl, rfl, ?_⟩
  · simp [shared_ptr.opBool, shared_ptr.get]
  · simp [shared_ptr.eqNull, shared_ptr.get]
  · rfl
  · rfl
  · simp [shared_ptr.use_count, shared_ptr.aliasCtor, control_block.add_ref,
      control_block.use_count]
